import Mathlib

/-!
# Review submission pipeline (`main.go`)

A shallow embedding of the HTTP handler `submitReview`, of the two helpers it
calls (`analyzeSentiment`, `sendTwilioMessage`) and of the standard-library
functions whose results decide its control flow (`strconv.Atoi`,
`strings.TrimSpace`, `Request.FormValue`, `http.Error`).

Modelling conventions.

* A Go `string` is a Lean `String`; where the Go code walks over the bytes of a
  string (`len(s)`, `s[0]`, `[]byte(s)`) the model walks over its UTF-8
  encoding, `goBytes`.
* Go's `int` is the 64-bit signed integer of a 64-bit platform
  (`strconv.IntSize = 64`); it is an `Int` here and every arithmetic step that
  can leave the range is wrapped with `wrapInt64`; a `uint64` is a `Nat`
  reduced modulo `2 ^ 64`.
* The outside world (environment variables, the generation service, the
  database, the messaging provider) is a record of functions, `World`; every
  call the handler makes to it is written to a trace of `Event`s, in program
  order, together with the lines printed on standard output.
* A run-time panic (nil pointer dereference) is an explicit outcome.
-/

namespace CustomerReview

/-! ## Strings and machine integers -/

/-- The bytes of a Go string: the UTF-8 encoding of its characters. -/
def goBytes (s : String) : List Nat :=
  s.toList.flatMap (fun c => (String.utf8EncodeChar c).map UInt8.toNat)

/-- Conversion to Go's 64-bit `int` / `int64`: two's complement wrap-around. -/
def wrapInt64 (x : Int) : Int :=
  (x + 2 ^ 63) % 2 ^ 64 - 2 ^ 63

/-- Conversion to `uint64`. -/
def wrapUint64 (x : Nat) : Nat :=
  x % 2 ^ 64

/-- The sentinel errors of `strconv`. -/
inductive NumErrKind
  | ErrSyntax
  | ErrRange
deriving DecidableEq, Repr

/-- Go `error` values that occur in the program. -/
inductive GoError
  /-- The error `*strconv.NumError` with fields `Func`, `Num`, `Err` -/
  | numError (func : String) (num : String) (err : NumErrKind)
  /-- The result of `fmt.Errorf(msg)`. -/
  | errorf (msg : String)
  /-- An error handed back by a library or remote service. -/
  | external (msg : String)
deriving DecidableEq, Repr

/-! ## `strconv.Atoi` -/

/-- The loop of the fast path of `strconv.Atoi`:
`for _, ch := range []byte(s) { ch -= '0'; if ch > 9 { syntax error }; n = n*10 + int(ch) }`.
`none` is the syntax error. -/
def atoiFastLoop : List Nat → Int → Option Int
  | [], n => some n
  | ch :: rest, n =>
    let ch1 := (ch + 256 - 48) % 256
    if ch1 > 9 then none
    else atoiFastLoop rest (wrapInt64 (n * 10 + (ch1 : Int)))

/-- Digit value of a byte in `strconv.ParseUint`: decimal digits, then letters
(either case) counting from ten; `none` for every other byte (with base 10 the
underscore is not accepted). -/
def digitOfByte (c : Nat) : Option Nat :=
  if 48 ≤ c ∧ c ≤ 57 then some (c - 48)
  else if 97 ≤ c ∧ c ≤ 122 then some (c - 97 + 10)
  else if 65 ≤ c ∧ c ≤ 90 then some (c - 65 + 10)
  else none

/-- Outcome of the digit loop of `strconv.ParseUint(s, 10, 64)`. -/
inductive UintLoop
  | value (n : Nat)
  | syntaxErr
  | rangeErr
deriving DecidableEq, Repr

/-- The digit loop of `strconv.ParseUint` with `base = 10`, `bitSize = 64`:
`cutoff = maxUint64/10 + 1`, `maxVal = 1<<64 - 1`. -/
def parseUintLoop : List Nat → Nat → UintLoop
  | [], n => .value n
  | c :: rest, n =>
    match digitOfByte c with
    | none => .syntaxErr
    | some d =>
      if d ≥ 10 then .syntaxErr
      else if n ≥ (2 ^ 64 - 1) / 10 + 1 then .rangeErr
      else
        let n10 := wrapUint64 (n * 10)
        let n1 := wrapUint64 (n10 + d)
        if n1 < n10 ∨ n1 > 2 ^ 64 - 1 then .rangeErr
        else parseUintLoop rest n1

/-- Go's `strconv.ParseUint(s, 10, 0)` on the bytes of `s`; on a range error Go
returns `maxVal` together with the error. -/
def ParseUint (s : List Nat) : UintLoop :=
  if s = [] then .syntaxErr else parseUintLoop s 0

/-- Go's `strconv.ParseInt(s, 10, 0)` on the bytes of `s`, with the error kind on
failure. -/
def ParseInt (s : List Nat) : Except NumErrKind Int :=
  match s with
  | [] => .error .ErrSyntax
  | c :: rest =>
    let neg := decide (c = 45)
    let body := if c = 43 ∨ c = 45 then rest else s
    match ParseUint body with
    | .syntaxErr => .error .ErrSyntax
    | .rangeErr => .error .ErrRange
    | .value un =>
      if ¬ neg ∧ un ≥ 2 ^ 63 then .error .ErrRange
      else if neg ∧ un > 2 ^ 63 then .error .ErrRange
      else
        let n := wrapInt64 (un : Int)
        .ok (if neg then wrapInt64 (-n) else n)

/-- Go's `strconv.Atoi`: the fast path for strings of 1 to 18 bytes, `ParseInt`
otherwise. -/
def Atoi (s : String) : Except GoError Int :=
  let bytes := goBytes s
  let sLen := bytes.length
  if 0 < sLen ∧ sLen < 19 then
    match bytes with
    | [] => .error (.numError "Atoi" s .ErrSyntax)
    | c :: rest =>
      let body := if c = 45 ∨ c = 43 then rest else bytes
      if body.length < 1 then .error (.numError "Atoi" s .ErrSyntax)
      else
        match atoiFastLoop body 0 with
        | none => .error (.numError "Atoi" s .ErrSyntax)
        | some n => .ok (if c = 45 then wrapInt64 (-n) else n)
  else
    match ParseInt bytes with
    | .error k => .error (.numError "Atoi" s k)
    | .ok i64 => .ok (wrapInt64 i64)

/-! ## `strings.TrimSpace` -/

/-- Go's `unicode.IsSpace`: the Latin-1 cases of the switch, then the table
`unicode.White_Space`. -/
def IsSpace (r : Char) : Bool :=
  let v := r.toNat
  if v ≤ 0xFF then
    v = 0x09 || v = 0x0A || v = 0x0B || v = 0x0C || v = 0x0D || v = 0x20 || v = 0x85 || v = 0xA0
  else
    v = 0x1680 || (0x2000 ≤ v && v ≤ 0x200A) || v = 0x2028 || v = 0x2029 || v = 0x202F
      || v = 0x205F || v = 0x3000

/-- Go's `strings.TrimSpace`: the string without its leading and trailing white
space. -/
def TrimSpace (s : String) : String :=
  String.mk ((s.toList.dropWhile IsSpace).reverse.dropWhile IsSpace).reverse

/-! ## HTTP request and response -/

/-- The constant `http.MethodPost`. -/
def MethodPost : String := "POST"

/-- The constant `http.StatusBadRequest`. -/
def StatusBadRequest : Nat := 400

/-- The constant `http.StatusMethodNotAllowed`. -/
def StatusMethodNotAllowed : Nat := 405

/-- The constant `http.StatusInternalServerError`. -/
def StatusInternalServerError : Nat := 500

/-- The constant `http.StatusOK`, the status of a response whose body is written without a
call of `WriteHeader`. -/
def StatusOK : Nat := 200

/-- The part of `*http.Request` that the handler reads: the method, the result
of `r.ParseForm()` (`none` is a nil error) and the parsed form `r.Form`, a map
from keys to lists of values (a missing key has the empty list). -/
structure Request where
  Method : String
  ParseForm : Option GoError
  Form : String → List String

/-- The method `r.FormValue(key)`: the first value of the key, the empty string when there
is none. -/
def Request.FormValue (r : Request) (key : String) : String :=
  match r.Form key with
  | [] => ""
  | v :: _ => v

/-- What the handler wrote to its `http.ResponseWriter`. -/
structure Response where
  status : Nat
  body : String
deriving DecidableEq, Repr

/-- The call `http.Error(w, msg, code)`: status `code`, body `msg` followed by a
newline. -/
def httpError (msg : String) (code : Nat) : Response :=
  { status := code, body := msg ++ "\n" }

/-! ## The outside world and the trace of a run -/

/-- The interface `genai.Part`: a text fragment or a part of another kind (blob, function
call, ...). -/
inductive Part
  | Text (s : String)
  | other (kind : String)
deriving DecidableEq, Repr

/-- The struct `genai.Candidate`; `Content` is a pointer (`*genai.Content`) and may be
nil; `some parts` holds `Content.Parts`. -/
structure Candidate where
  Content : Option (List Part)
deriving DecidableEq, Repr

/-- The struct `genai.GenerateContentResponse`. -/
structure GenerateContentResponse where
  Candidates : List Candidate
deriving DecidableEq, Repr

/-- The arguments of `client.Api.CreateMessage`, with the credentials of the
client it is called on. -/
structure CreateMessage where
  Username : String
  Password : String
  To : String
  From : String
  Body : String
deriving DecidableEq, Repr

/-- Everything outside the process. Each function gives the outcome of one kind
of call for its arguments; for errors `none` is nil. -/
structure World where
  Getenv : String → String
  GenerateContent : String → Except GoError GenerateContentResponse
  Prepare : String → Option GoError
  Exec : String → Int → String → Option GoError
  CreateMessage : CreateMessage → Option GoError

/-- An argument of a `fmt.Printf` call. -/
inductive Arg
  | str (s : String)
  | int (n : Int)
  | err (e : GoError)
deriving DecidableEq, Repr

/-- One observable step of a run. -/
inductive Event
  /-- The call `fmt.Println(line)`. -/
  | println (line : String)
  /-- The call `fmt.Printf(format, args...)`. -/
  | printf (format : String) (args : List Arg)
  /-- The call `geminiModel.GenerateContent(ctx, genai.Text(prompt))`. -/
  | generateContent (prompt : String)
  /-- The call `db.Prepare(query)`. -/
  | prepare (query : String)
  /-- The call `stmt.Exec(name, rating, description)`. -/
  | exec (name : String) (rating : Int) (description : String)
  /-- The deferred `stmt.Close()`. -/
  | stmtClose
  /-- The call `client.Api.CreateMessage(params)`. -/
  | createMessage (m : CreateMessage)
deriving DecidableEq, Repr

/-- Result of a Go function returning `(T, error)` that may also panic. -/
inductive Result (α : Type)
  | ok (a : α)
  | error (e : GoError)
  | panic
deriving DecidableEq, Repr

/-! ## `analyzeSentiment` -/

/-- The `fmt.Sprintf` of the prompt. -/
def sentimentPrompt (description : String) : String :=
  "Analyze the sentiment of the following review. Respond with only one word: 'Positive', 'Negative', or 'Neutral'.\n\nReview: " ++ description

/-- The loop over `Content.Parts`: the text parts are appended in order, the
other parts are skipped. -/
def concatText : List Part → String → String
  | [], sentiment => sentiment
  | Part.Text t :: rest, sentiment => concatText rest (sentiment ++ t)
  | Part.other _ :: rest, sentiment => concatText rest sentiment

/-- What `analyzeSentiment` does with the outcome of `GenerateContent`. -/
def analyzeResponse : Except GoError GenerateContentResponse → Result String
  | .error err => .error err
  | .ok resp =>
    match resp.Candidates with
    | [] => .error (.errorf "no candidates in response")
    | c0 :: _ =>
      match c0.Content with
      | none => .panic
      | some parts =>
        let sentiment := concatText parts ""
        if sentiment = "" then .error (.errorf "no text content in response")
        else .ok (TrimSpace sentiment)

/-- The function `analyzeSentiment(description)`: its result and the calls it made. -/
def analyzeSentiment (w : World) (description : String) : Result String × List Event :=
  let prompt := sentimentPrompt description
  (analyzeResponse (w.GenerateContent prompt), [Event.generateContent prompt])

/-! ## `sendTwilioMessage` -/

/-- The message `fmt.Sprintf("%s rated your product a %d star", name, rating)`. -/
def smsBody (name : String) (rating : Int) : String :=
  name ++ " rated your product a " ++ toString rating ++ " star"

/-- The request that `sendTwilioMessage(name, rating)` hands to the provider. -/
def smsRequest (w : World) (name : String) (rating : Int) : CreateMessage :=
  { Username := w.Getenv "TWILIO_ACCOUNT_SID"
    Password := w.Getenv "TWILIO_AUTH_TOKEN"
    To := w.Getenv "PRODUCT_OWNER_PHONE_NUMBER"
    From := w.Getenv "TWILIO_PHONE_NUMBER"
    Body := smsBody name rating }

/-- The function `sendTwilioMessage(name, rating)`: the returned error (`none` is nil) and
the call it made. -/
def sendTwilioMessage (w : World) (name : String) (rating : Int) : Option GoError × List Event :=
  let params := smsRequest w name rating
  (w.CreateMessage params, [Event.createMessage params])

/-! ## `submitReview` -/

/-- The INSERT statement of the handler. -/
def insertSQL : String := "INSERT INTO reviews (name, rating, description) VALUES (?, ?, ?)"

/-- The three-way choice of the acknowledgment text. -/
def sentimentMessage (sentiment : String) : String :=
  if sentiment = "Positive" then "Thank you for the positive feedback!"
  else if sentiment = "Negative" then
    "We are sorry to hear about your experience. We will work on improving it!"
  else "Thank you for your feedback!"

/-- The text before `%s` in the `fmt.Fprintf` of the response. -/
def fragmentHead : String :=
  "\n                <div class=\"sentiment-message\">\n                    <p>"

/-- The text after `%s` in the `fmt.Fprintf` of the response. -/
def fragmentTail : String :=
  "</p>\n                    <a href=\"/\">Submit another review</a>\n                </div>\n            "

/-- The HTML fragment written on success. -/
def renderFragment (msg : String) : String :=
  fragmentHead ++ msg ++ fragmentTail

/-- One run of the handler: the response (`none` when the handler panicked
before writing one) and the trace. -/
structure Run where
  response : Option Response
  trace : List Event
deriving DecidableEq, Repr

/-- The handler returned by `submitReview(db)`, applied to one request. -/
def submitReview (w : World) (r : Request) : Run :=
  if r.Method = MethodPost then
    let t0 := [Event.println "Form submission received"]
    match r.ParseForm with
    | some err =>
      { response := some (httpError "Error parsing form" StatusBadRequest)
        trace := t0 ++ [Event.printf "Error parsing form: %v\n" [.err err]] }
    | none =>
      let name := r.FormValue "review_name"
      match Atoi (r.FormValue "rating") with
      | .error err =>
        { response := some (httpError "Invalid rating value" StatusBadRequest)
          trace := t0 ++ [Event.printf "Invalid rating value: %v\n" [.err err]] }
      | .ok rating =>
        let description := r.FormValue "review_description"
        let t1 := t0 ++ [Event.printf "Received name: %s, rating: %d, description: %s\n"
          [.str name, .int rating, .str description]]
        if name = "" ∨ rating = 0 ∨ description = "" then
          { response := some (httpError "All fields are required" StatusBadRequest)
            trace := t1 ++ [Event.println "Missing required form fields"] }
        else
          match analyzeSentiment w description with
          | (.panic, ta) => { response := none, trace := t1 ++ ta }
          | (.error err, ta) =>
            { response := some (httpError "Error analyzing sentiment" StatusInternalServerError)
              trace := t1 ++ ta ++ [Event.printf "Error analyzing sentiment: %v\n" [.err err]] }
          | (.ok sentiment, ta) =>
            let t2 := t1 ++ ta ++ [Event.prepare insertSQL]
            match w.Prepare insertSQL with
            | some err =>
              { response := some (httpError "Database error" StatusInternalServerError)
                trace := t2 ++ [Event.printf "Database preparation error: %v\n" [.err err]] }
            | none =>
              let t3 := t2 ++ [Event.exec name rating description]
              match w.Exec name rating description with
              | some err =>
                { response := some (httpError "Database error" StatusInternalServerError)
                  trace := t3 ++ [Event.printf "Database execution error: %v\n" [.err err],
                    Event.stmtClose] }
              | none =>
                let t4 := t3 ++ [Event.println "Review submitted successfully"]
                let (smsErr, ts) := sendTwilioMessage w name rating
                let t5 := t4 ++ ts ++
                  [match smsErr with
                   | some err => Event.printf "Error sending SMS: %v\n" [.err err]
                   | none => Event.println "SMS sent successfully"]
                { response := some { status := StatusOK, body := renderFragment (sentimentMessage sentiment) }
                  trace := t5 ++ [Event.stmtClose] }
  else
    { response := some (httpError "Invalid request method" StatusMethodNotAllowed)
      trace := [] }

/-! ## Reading a trace -/

/-- The store insertions of a trace, in order. -/
def insertions : List Event → List (String × Int × String)
  | [] => []
  | Event.exec n r d :: rest => (n, r, d) :: insertions rest
  | _ :: rest => insertions rest

/-- The notification attempts of a trace, in order. -/
def notifications : List Event → List CreateMessage
  | [] => []
  | Event.createMessage m :: rest => m :: notifications rest
  | _ :: rest => notifications rest

/-- The classifier calls of a trace, in order. -/
def classifierCalls : List Event → List String
  | [] => []
  | Event.generateContent p :: rest => p :: classifierCalls rest
  | _ :: rest => classifierCalls rest

/-- The calls to the store, to the classifier and to the messaging provider, in
order; the printed lines are left out. -/
def externalCalls : List Event → List Event
  | [] => []
  | Event.println _ :: rest => externalCalls rest
  | Event.printf _ _ :: rest => externalCalls rest
  | e :: rest => e :: externalCalls rest

/-- The request passes the four validation checks of the handler, its rating
text parsing to `rating`. -/
def Valid (r : Request) (rating : Int) : Prop :=
  r.Method = MethodPost ∧ r.ParseForm = none ∧ Atoi (r.FormValue "rating") = .ok rating ∧
    r.FormValue "review_name" ≠ "" ∧ rating ≠ 0 ∧ r.FormValue "review_description" ≠ ""

/-- The line printed after the notification attempt. -/
def smsLog : Option GoError → Event
  | some err => Event.printf "Error sending SMS: %v\n" [.err err]
  | none => Event.println "SMS sent successfully"

/-- The two lines every validated submission has printed. -/
def receivedLog (r : Request) (rating : Int) : List Event :=
  [Event.println "Form submission received",
   Event.printf "Received name: %s, rating: %d, description: %s\n"
     [.str (r.FormValue "review_name"), .int rating, .str (r.FormValue "review_description")]]

/-! ## Decimal digit strings -/

/-- Bytes of a list of characters. -/
def bytesOfChars (cs : List Char) : List Nat :=
  cs.flatMap (fun c => (String.utf8EncodeChar c).map UInt8.toNat)

/-- Value of a list of decimal digit bytes, most significant first. -/
def decVal (bs : List Nat) : Nat :=
  bs.foldl (fun a b => a * 10 + (b - 48)) 0

/-- Every byte is one of the ten decimal digits. -/
def IsDigits (bs : List Nat) : Prop := ∀ b ∈ bs, 48 ≤ b ∧ b ≤ 57

/-! ## Concrete requests and worlds -/

/-- The form of the submission page filled with the three given values. -/
def formOf (name rating description : String) : String → List String :=
  fun key =>
    if key = "review_name" then [name]
    else if key = "rating" then [rating]
    else if key = "review_description" then [description]
    else []

/-- A POST request whose form parsed to the three given values. -/
def postOf (name rating description : String) : Request :=
  { Method := MethodPost, ParseForm := none, Form := formOf name rating description }

/-- A request with another method and the same form. -/
def requestOf (method name rating description : String) : Request :=
  { Method := method, ParseForm := none, Form := formOf name rating description }

/-- A world whose services answer every call alike: the generation service with
`reply`, the store and the messaging provider with the given errors (`none`:
success). -/
def worldOf (reply : Except GoError GenerateContentResponse)
    (prepareErr execErr smsErr : Option GoError) : World :=
  { Getenv := fun key => key
    GenerateContent := fun _ => reply
    Prepare := fun _ => prepareErr
    Exec := fun _ _ _ => execErr
    CreateMessage := fun _ => smsErr }

/-- A generation response with one candidate holding one text part. -/
def textReply (s : String) : Except GoError GenerateContentResponse :=
  .ok { Candidates := [{ Content := some [Part.Text s] }] }


/-- A generation response with several candidates, each holding one text
part. -/
def candidatesReply (texts : List String) : Except GoError GenerateContentResponse :=
  .ok { Candidates := texts.map (fun t => { Content := some [Part.Text t] }) }

/-! ## The classifier as the specification words it -/

/-- The concatenation, in order, of the text fragments among the given parts. -/
def joinText : List Part → String
  | [] => ""
  | Part.Text t :: rest => t ++ joinText rest
  | Part.other _ :: rest => joinText rest

/-- All parts returned in a response, over all its candidates, in order. -/
def returnedParts (resp : GenerateContentResponse) : List Part :=
  resp.Candidates.flatMap (fun c => c.Content.getD [])

/-- The classifier of the specification: an error when the call fails, when
there is no candidate, or when the concatenation of the returned text fragments
is empty; otherwise that concatenation, trimmed. -/
def specClassify : Except GoError GenerateContentResponse → Result String
  | .error err => .error err
  | .ok resp =>
    if resp.Candidates = [] then .error (.errorf "no candidates in response")
    else if joinText (returnedParts resp) = "" then
      .error (.errorf "no text content in response")
    else .ok (TrimSpace (joinText (returnedParts resp)))
/-! ## The paths of the handler -/

theorem submitReview_not_post (w : World) (r : Request) (hm : r.Method ≠ MethodPost) :
    submitReview w r =
      { response := some (httpError "Invalid request method" StatusMethodNotAllowed)
        trace := [] } := by
  simp [submitReview, hm]

theorem submitReview_parse_error (w : World) (r : Request) (err : GoError)
    (hm : r.Method = MethodPost) (hp : r.ParseForm = some err) :
    submitReview w r =
      { response := some (httpError "Error parsing form" StatusBadRequest)
        trace := [Event.println "Form submission received",
          Event.printf "Error parsing form: %v\n" [.err err]] } := by
  simp [submitReview, hm, hp]

theorem submitReview_bad_rating (w : World) (r : Request) (err : GoError)
    (hm : r.Method = MethodPost) (hp : r.ParseForm = none)
    (ha : Atoi (r.FormValue "rating") = .error err) :
    submitReview w r =
      { response := some (httpError "Invalid rating value" StatusBadRequest)
        trace := [Event.println "Form submission received",
          Event.printf "Invalid rating value: %v\n" [.err err]] } := by
  simp [submitReview, hm, hp, ha]

theorem submitReview_missing (w : World) (r : Request) (rating : Int)
    (hm : r.Method = MethodPost) (hp : r.ParseForm = none)
    (ha : Atoi (r.FormValue "rating") = .ok rating)
    (hf : r.FormValue "review_name" = "" ∨ rating = 0 ∨ r.FormValue "review_description" = "") :
    submitReview w r =
      { response := some (httpError "All fields are required" StatusBadRequest)
        trace := receivedLog r rating ++ [Event.println "Missing required form fields"] } := by
  simp [submitReview, hm, hp, ha, hf, receivedLog]

theorem submitReview_classifier_panic (w : World) (r : Request) (rating : Int)
    (hv : Valid r rating)
    (hc : (analyzeSentiment w (r.FormValue "review_description")).1 = .panic) :
    submitReview w r =
      { response := none
        trace := receivedLog r rating ++
          [Event.generateContent (sentimentPrompt (r.FormValue "review_description"))] } := by
  obtain ⟨hm, hp, ha, hn, hr, hd⟩ := hv
  simp only [analyzeSentiment] at hc
  simp [submitReview, hm, hp, ha, hn, hr, hd, analyzeSentiment, hc, receivedLog]

theorem submitReview_classifier_error (w : World) (r : Request) (rating : Int) (err : GoError)
    (hv : Valid r rating)
    (hc : (analyzeSentiment w (r.FormValue "review_description")).1 = .error err) :
    submitReview w r =
      { response := some (httpError "Error analyzing sentiment" StatusInternalServerError)
        trace := receivedLog r rating ++
          [Event.generateContent (sentimentPrompt (r.FormValue "review_description")),
           Event.printf "Error analyzing sentiment: %v\n" [.err err]] } := by
  obtain ⟨hm, hp, ha, hn, hr, hd⟩ := hv
  simp only [analyzeSentiment] at hc
  simp [submitReview, hm, hp, ha, hn, hr, hd, analyzeSentiment, hc, receivedLog]

theorem submitReview_prepare_error (w : World) (r : Request) (rating : Int)
    (sentiment : String) (err : GoError) (hv : Valid r rating)
    (hc : (analyzeSentiment w (r.FormValue "review_description")).1 = .ok sentiment)
    (hp : w.Prepare insertSQL = some err) :
    submitReview w r =
      { response := some (httpError "Database error" StatusInternalServerError)
        trace := receivedLog r rating ++
          [Event.generateContent (sentimentPrompt (r.FormValue "review_description")),
           Event.prepare insertSQL,
           Event.printf "Database preparation error: %v\n" [.err err]] } := by
  obtain ⟨hm, hf, ha, hn, hr, hd⟩ := hv
  simp only [analyzeSentiment] at hc
  simp [submitReview, hm, hf, ha, hn, hr, hd, analyzeSentiment, hc, hp, receivedLog]

theorem submitReview_exec_error (w : World) (r : Request) (rating : Int)
    (sentiment : String) (err : GoError) (hv : Valid r rating)
    (hc : (analyzeSentiment w (r.FormValue "review_description")).1 = .ok sentiment)
    (hp : w.Prepare insertSQL = none)
    (he : w.Exec (r.FormValue "review_name") rating (r.FormValue "review_description") = some err) :
    submitReview w r =
      { response := some (httpError "Database error" StatusInternalServerError)
        trace := receivedLog r rating ++
          [Event.generateContent (sentimentPrompt (r.FormValue "review_description")),
           Event.prepare insertSQL,
           Event.exec (r.FormValue "review_name") rating (r.FormValue "review_description"),
           Event.printf "Database execution error: %v\n" [.err err],
           Event.stmtClose] } := by
  obtain ⟨hm, hf, ha, hn, hr, hd⟩ := hv
  simp only [analyzeSentiment] at hc
  simp [submitReview, hm, hf, ha, hn, hr, hd, analyzeSentiment, hc, hp, he, receivedLog]

theorem submitReview_success (w : World) (r : Request) (rating : Int)
    (sentiment : String) (hv : Valid r rating)
    (hc : (analyzeSentiment w (r.FormValue "review_description")).1 = .ok sentiment)
    (hp : w.Prepare insertSQL = none)
    (he : w.Exec (r.FormValue "review_name") rating (r.FormValue "review_description") = none) :
    submitReview w r =
      { response := some { status := StatusOK, body := renderFragment (sentimentMessage sentiment) }
        trace := receivedLog r rating ++
          [Event.generateContent (sentimentPrompt (r.FormValue "review_description")),
           Event.prepare insertSQL,
           Event.exec (r.FormValue "review_name") rating (r.FormValue "review_description"),
           Event.println "Review submitted successfully",
           Event.createMessage (smsRequest w (r.FormValue "review_name") rating),
           smsLog (w.CreateMessage (smsRequest w (r.FormValue "review_name") rating)),
           Event.stmtClose] } := by
  obtain ⟨hm, hf, ha, hn, hr, hd⟩ := hv
  simp only [analyzeSentiment] at hc
  simp only [submitReview, hm, hf, ha, hn, hr, hd, analyzeSentiment, hc, hp, he, receivedLog,
    sendTwilioMessage, if_true, or_self, if_false, List.append_assoc, List.cons_append,
    List.nil_append, ne_eq, not_false_eq_true]
  cases w.CreateMessage (smsRequest w (r.FormValue "review_name") rating) <;> simp [smsLog]

/-- Every request either fails one of the four validation checks or is valid. -/
theorem validation_cases (r : Request) :
    r.Method ≠ MethodPost ∨
    (∃ err, r.Method = MethodPost ∧ r.ParseForm = some err) ∨
    (∃ err, r.Method = MethodPost ∧ r.ParseForm = none ∧
      Atoi (r.FormValue "rating") = .error err) ∨
    (∃ rating, r.Method = MethodPost ∧ r.ParseForm = none ∧
      Atoi (r.FormValue "rating") = .ok rating ∧
      (r.FormValue "review_name" = "" ∨ rating = 0 ∨ r.FormValue "review_description" = "")) ∨
    (∃ rating, Valid r rating) := by
  by_cases hm : r.Method = MethodPost
  · right
    cases hp : r.ParseForm with
    | some err => exact Or.inl ⟨err, hm, rfl⟩
    | none =>
      right
      cases ha : Atoi (r.FormValue "rating") with
      | error err => exact Or.inl ⟨err, hm, rfl, rfl⟩
      | ok rating =>
        right
        by_cases hf : r.FormValue "review_name" = "" ∨ rating = 0 ∨
            r.FormValue "review_description" = ""
        · exact Or.inl ⟨rating, hm, rfl, rfl, hf⟩
        · right
          simp only [not_or] at hf
          exact ⟨rating, hm, hp, ha, hf.1, hf.2.1, hf.2.2⟩
  · exact Or.inl hm

/-- What a valid request leads to, by the outcomes of the classifier and of the
store. -/
theorem classifier_cases (w : World) (r : Request) :
    (analyzeSentiment w (r.FormValue "review_description")).1 = .panic ∨
    (∃ err, (analyzeSentiment w (r.FormValue "review_description")).1 = .error err) ∨
    (∃ sentiment, (analyzeSentiment w (r.FormValue "review_description")).1 = .ok sentiment) := by
  cases h : (analyzeSentiment w (r.FormValue "review_description")).1 with
  | panic => exact Or.inl rfl
  | error err => exact Or.inr (Or.inl ⟨err, rfl⟩)
  | ok s => exact Or.inr (Or.inr ⟨s, rfl⟩)

/-! ## `strconv.Atoi` on decimal text -/

theorem bytesOfChars_cons (c : Char) (cs : List Char) :
    bytesOfChars (c :: cs) = (String.utf8EncodeChar c).map UInt8.toNat ++ bytesOfChars cs := by
  simp [bytesOfChars]

theorem bytes_digitChar (d : Nat) (hd : d < 10) :
    (String.utf8EncodeChar (Nat.digitChar d)).map UInt8.toNat = [48 + d] := by
  interval_cases d <;> rfl

theorem toDigitsCore_bytes (fuel : Nat) : ∀ (n : Nat) (ds : List Char), n < fuel →
    ∃ bs, bytesOfChars (Nat.toDigitsCore 10 fuel n ds) = bs ++ bytesOfChars ds ∧
      bs ≠ [] ∧ IsDigits bs ∧ decVal bs = n := by
  induction fuel with
  | zero => intro n ds h; omega
  | succ fuel ih =>
    intro n ds h
    simp only [Nat.toDigitsCore]
    have hd : n % 10 < 10 := Nat.mod_lt _ (by decide)
    by_cases h0 : n / 10 = 0
    · simp only [h0, if_true]
      refine ⟨[48 + n % 10], ?_, by simp, ?_, ?_⟩
      · rw [bytesOfChars_cons, bytes_digitChar _ hd]
      · intro b hb; simp at hb; omega
      · simp [decVal]; omega
    · simp only [h0, if_false]
      obtain ⟨bs, hbs, hne, hdig, hval⟩ := ih (n / 10) (Nat.digitChar (n % 10) :: ds) (by omega)
      refine ⟨bs ++ [48 + n % 10], ?_, by simp, ?_, ?_⟩
      · rw [hbs, bytesOfChars_cons, bytes_digitChar _ hd]; simp
      · intro b hb
        simp at hb
        rcases hb with hb | hb
        · exact hdig b hb
        · omega
      · simp only [decVal] at hval ⊢
        rw [List.foldl_append, hval]; simp; omega

theorem goBytes_natRepr (n : Nat) :
    ∃ bs, goBytes (toString n) = bs ∧ bs ≠ [] ∧ IsDigits bs ∧ decVal bs = n := by
  obtain ⟨bs, hbs, hne, hdig, hval⟩ := toDigitsCore_bytes (n + 1) n [] (by omega)
  refine ⟨bs, ?_, hne, hdig, hval⟩
  have h0 : bytesOfChars [] = [] := rfl
  rw [h0, List.append_nil] at hbs
  show bytesOfChars (Nat.repr n).toList = bs
  rw [← hbs]
  rfl

theorem foldl_dec_ge (bs : List Nat) : ∀ a : Nat,
    a ≤ bs.foldl (fun a b => a * 10 + (b - 48)) a := by
  induction bs with
  | nil => intro a; simp
  | cons b bs ih =>
    intro a
    simp only [List.foldl_cons]
    have := ih (a * 10 + (b - 48))
    omega

theorem atoiFastLoop_digits (bs : List Nat) : ∀ a : Nat, IsDigits bs →
    bs.foldl (fun a b => a * 10 + (b - 48)) a < 2 ^ 63 →
    atoiFastLoop bs (a : Int) = some ((bs.foldl (fun a b => a * 10 + (b - 48)) a : Nat) : Int) := by
  induction bs with
  | nil => intro a _ _; simp [atoiFastLoop]
  | cons b bs ih =>
    intro a hdig hlt
    have hb := hdig b (by simp)
    have hdig2 : IsDigits bs := fun x hx => hdig x (by simp [hx])
    simp only [List.foldl_cons] at hlt ⊢
    have hge := foldl_dec_ge bs (a * 10 + (b - 48))
    have h1 : (b + 256 - 48) % 256 = b - 48 := by omega
    have h2 : ¬ (b - 48 > 9) := by omega
    have h3 : wrapInt64 ((a : Int) * 10 + ((b - 48 : Nat) : Int)) = ((a * 10 + (b - 48) : Nat) : Int) := by
      simp only [wrapInt64]
      push_cast
      omega
    simp only [atoiFastLoop, h1, h2, if_false, h3]
    exact ih _ hdig2 hlt

theorem parseUintLoop_digits (bs : List Nat) : ∀ a : Nat, IsDigits bs →
    bs.foldl (fun a b => a * 10 + (b - 48)) a < 2 ^ 64 →
    parseUintLoop bs a = .value (bs.foldl (fun a b => a * 10 + (b - 48)) a) := by
  induction bs with
  | nil => intro a _ _; simp [parseUintLoop]
  | cons b bs ih =>
    intro a hdig hlt
    have hb := hdig b (by simp)
    have hdig2 : IsDigits bs := fun x hx => hdig x (by simp [hx])
    simp only [List.foldl_cons] at hlt ⊢
    have hge := foldl_dec_ge bs (a * 10 + (b - 48))
    have hd : digitOfByte b = some (b - 48) := by simp [digitOfByte, hb]
    have h1 : ¬ (b - 48 ≥ 10) := by omega
    have h2 : ¬ (a ≥ (2 ^ 64 - 1) / 10 + 1) := by omega
    have h3 : wrapUint64 (a * 10) = a * 10 := by simp only [wrapUint64]; omega
    have h4 : wrapUint64 (a * 10 + (b - 48)) = a * 10 + (b - 48) := by
      simp only [wrapUint64]; omega
    have h5 : ¬ (a * 10 + (b - 48) < a * 10 ∨ a * 10 + (b - 48) > 2 ^ 64 - 1) := by omega
    simp only [parseUintLoop, hd, h1, h2, if_false, h3, h4, h5]
    exact ih _ hdig2 hlt

theorem wrapInt64_id (x : Int) (hlo : -2 ^ 63 ≤ x) (hhi : x < 2 ^ 63) : wrapInt64 x = x := by
  simp only [wrapInt64]; omega

theorem Atoi_of_digits (s : String) (bs : List Nat) (h : goBytes s = bs) (hne : bs ≠ [])
    (hdig : IsDigits bs) (hlt : decVal bs < 2 ^ 63) : Atoi s = .ok ((decVal bs : Nat) : Int) := by
  cases bs with
  | nil => exact absurd rfl hne
  | cons c rest =>
    have hc := hdig c (by simp)
    have hc45 : ¬ (c = 45) := by omega
    have hc43 : ¬ (c = 43) := by omega
    have hfast : atoiFastLoop (c :: rest) 0 = some ((decVal (c :: rest) : Nat) : Int) :=
      atoiFastLoop_digits (c :: rest) 0 hdig hlt
    have hslow : parseUintLoop (c :: rest) 0 = .value (decVal (c :: rest)) :=
      parseUintLoop_digits (c :: rest) 0 hdig (by
        have : (2:Nat) ^ 63 < 2 ^ 64 := by norm_num
        exact lt_trans hlt this)
    have hl : ¬ ((c :: rest).length < 1) := by simp
    have hnil : ¬ (c :: rest = []) := by simp
    generalize decVal (c :: rest) = v at hlt hfast hslow ⊢
    have hw : wrapInt64 (v : Int) = v := wrapInt64_id _ (by omega) (by omega)
    have hn : ¬ (v ≥ 2 ^ 63) := by omega
    unfold Atoi
    simp only [h]
    by_cases hlen : 0 < (c :: rest).length ∧ (c :: rest).length < 19
    · simp only [hlen, and_self, if_true, hc45, hc43, or_self, if_false, hl, hfast]
    · simp only [hlen, if_false, ParseInt, hc43, hc45, or_self, ParseUint, hnil, hslow,
        decide_False, hn, and_false, false_and, Bool.false_eq_true, hw]

theorem Atoi_of_neg_digits (s : String) (bs : List Nat) (h : goBytes s = 45 :: bs)
    (hne : bs ≠ []) (hdig : IsDigits bs) (hlt : decVal bs < 2 ^ 63) :
    Atoi s = .ok (-((decVal bs : Nat) : Int)) := by
  have hfast : atoiFastLoop bs 0 = some ((decVal bs : Nat) : Int) :=
    atoiFastLoop_digits bs 0 hdig hlt
  have hslow : parseUintLoop bs 0 = .value (decVal bs) :=
    parseUintLoop_digits bs 0 hdig (by
      have : (2:Nat) ^ 63 < 2 ^ 64 := by norm_num
      exact lt_trans hlt this)
  have hl : ¬ (bs.length < 1) := by
    cases bs with
    | nil => exact absurd rfl hne
    | cons c rest => simp
  generalize decVal bs = v at hlt hfast hslow ⊢
  have hw : wrapInt64 (v : Int) = v := wrapInt64_id _ (by omega) (by omega)
  have hw2 : wrapInt64 (-(v : Int)) = -(v : Int) := wrapInt64_id _ (by omega) (by omega)
  have hn : ¬ (v > 2 ^ 63) := by omega
  unfold Atoi
  simp only [h]
  by_cases hlen : 0 < (45 :: bs).length ∧ (45 :: bs).length < 19
  · simp only [hlen, and_self, if_true, true_or, hl, if_false, hfast, hw2]
  · simp only [hlen, if_false, ParseInt, or_true, if_true, ParseUint, hne, hslow,
      decide_True, hn, and_false, not_true_eq_false, false_and, hw, hw2]

theorem Atoi_toString (n : Int) (hlo : -2 ^ 63 ≤ n) (hhi : n < 2 ^ 63) :
    Atoi (toString n) = .ok n := by
  cases n with
  | ofNat m =>
    obtain ⟨bs, hbs, hne, hdig, hval⟩ := goBytes_natRepr m
    have hm : m < 2 ^ 63 := by
      have h1 : (m : Int) < 2 ^ 63 := hhi
      omega
    have := Atoi_of_digits (toString m) bs hbs hne hdig (by omega)
    rw [hval] at this
    exact this
  | negSucc m =>
    by_cases hm : m + 1 < 2 ^ 63
    · obtain ⟨bs, hbs, hne, hdig, hval⟩ := goBytes_natRepr (m + 1)
      have hb : goBytes (toString (Int.negSucc m)) = 45 :: bs := by
        rw [← hbs]; rfl
      have := Atoi_of_neg_digits _ bs hb hne hdig (by omega)
      rw [hval] at this
      rw [this]
      rfl
    · have hm2 : m = 2 ^ 63 - 1 := by
        have : Int.negSucc m = -((m : Int) + 1) := rfl
        rw [this] at hlo
        omega
      subst hm2
      rfl

/-! ## `strconv.Atoi` outside the range of `int` -/

theorem foldl_dec_lt (bs : List Nat) : ∀ a : Nat, IsDigits bs →
    bs.foldl (fun a b => a * 10 + (b - 48)) a < (a + 1) * 10 ^ bs.length := by
  induction bs with
  | nil => intro a _; simp
  | cons b bs ih =>
    intro a hdig
    have hb := hdig b (by simp)
    have hdig2 : IsDigits bs := fun x hx => hdig x (by simp [hx])
    simp only [List.foldl_cons, List.length_cons]
    have h1 := ih (a * 10 + (b - 48)) hdig2
    have h2 : (a * 10 + (b - 48) + 1) * 10 ^ bs.length ≤ (a + 1) * 10 ^ (bs.length + 1) := by
      rw [pow_succ, ← mul_assoc, mul_comm (a + 1) (10 ^ bs.length), mul_comm _ (10 ^ bs.length),
        mul_assoc]
      apply Nat.mul_le_mul_left
      omega
    omega

theorem decVal_lt (bs : List Nat) (hdig : IsDigits bs) : decVal bs < 10 ^ bs.length := by
  have := foldl_dec_lt bs 0 hdig
  simpa [decVal] using this

theorem parseUintLoop_overflow (bs : List Nat) : ∀ a : Nat, IsDigits bs → a < 2 ^ 64 →
    2 ^ 64 ≤ bs.foldl (fun a b => a * 10 + (b - 48)) a →
    parseUintLoop bs a = .rangeErr := by
  induction bs with
  | nil => intro a _ ha h; simp at h; omega
  | cons b bs ih =>
    intro a hdig ha h
    have hb := hdig b (by simp)
    have hdig2 : IsDigits bs := fun x hx => hdig x (by simp [hx])
    simp only [List.foldl_cons] at h
    have hd : digitOfByte b = some (b - 48) := by simp [digitOfByte, hb]
    have h1 : ¬ (b - 48 ≥ 10) := by omega
    simp only [parseUintLoop, hd, h1, if_false]
    by_cases h2 : a ≥ (2 ^ 64 - 1) / 10 + 1
    · simp only [h2, if_true]
    · simp only [h2, if_false]
      have h3 : wrapUint64 (a * 10) = a * 10 := by simp only [wrapUint64]; omega
      by_cases h4 : a * 10 + (b - 48) < 2 ^ 64
      · have h5 : wrapUint64 (a * 10 + (b - 48)) = a * 10 + (b - 48) := by
          simp only [wrapUint64]; omega
        have h6 : ¬ (a * 10 + (b - 48) < a * 10 ∨ a * 10 + (b - 48) > 2 ^ 64 - 1) := by omega
        simp only [h3, h5, h6, if_false]
        exact ih _ hdig2 h4 h
      · have h5 : wrapUint64 (a * 10 + (b - 48)) < a * 10 := by
          simp only [wrapUint64]; omega
        simp only [h3, h5, true_or, if_true]

/-- On a non-empty string of decimal digits `ParseUint` gives its value when it
fits 64 bits and a range error otherwise. -/
theorem ParseUint_digits (bs : List Nat) (hne : bs ≠ []) (hdig : IsDigits bs) :
    ParseUint bs = if decVal bs < 2 ^ 64 then .value (decVal bs) else .rangeErr := by
  simp only [ParseUint, hne, if_false]
  by_cases h : decVal bs < 2 ^ 64
  · simp only [h, if_true]
    exact parseUintLoop_digits bs 0 hdig h
  · simp only [h, if_false]
    exact parseUintLoop_overflow bs 0 hdig (by norm_num) (by simp only [decVal] at h; omega)

theorem Atoi_of_digits_range (s : String) (bs : List Nat) (h : goBytes s = bs) (hne : bs ≠ [])
    (hdig : IsDigits bs) (hge : 2 ^ 63 ≤ decVal bs) :
    Atoi s = .error (.numError "Atoi" s .ErrRange) := by
  have hlen : ¬ (0 < bs.length ∧ bs.length < 19) := by
    intro hl
    have h1 := decVal_lt bs hdig
    have h2 : 10 ^ bs.length ≤ 10 ^ 18 := Nat.pow_le_pow_right (by norm_num) (by omega)
    have h3 : (10 : Nat) ^ 18 < 2 ^ 63 := by norm_num
    omega
  have hpu := ParseUint_digits bs hne hdig
  cases bs with
  | nil => exact absurd rfl hne
  | cons c rest =>
    have hc := hdig c (by simp)
    have hc45 : ¬ (c = 45) := by omega
    have hc43 : ¬ (c = 43) := by omega
    generalize decVal (c :: rest) = v at hge hpu
    unfold Atoi
    simp only [h, hlen, if_false, ParseInt, hc43, hc45, or_self, hpu, decide_False]
    by_cases hv : v < 2 ^ 64
    · simp only [hv, if_true]
      have h9 : 9223372036854775808 ≤ v := by omega
      simp [h9]
    · simp only [hv, if_false]

theorem Atoi_of_neg_digits_range (s : String) (bs : List Nat) (h : goBytes s = 45 :: bs)
    (hne : bs ≠ []) (hdig : IsDigits bs) (hge : 2 ^ 63 < decVal bs) :
    Atoi s = .error (.numError "Atoi" s .ErrRange) := by
  have hlen : ¬ (0 < (45 :: bs).length ∧ (45 :: bs).length < 19) := by
    intro hl
    simp only [List.length_cons] at hl
    have h1 := decVal_lt bs hdig
    have h2 : 10 ^ bs.length ≤ 10 ^ 18 := Nat.pow_le_pow_right (by norm_num) (by omega)
    have h3 : (10 : Nat) ^ 18 < 2 ^ 63 := by norm_num
    omega
  have hpu := ParseUint_digits bs hne hdig
  generalize decVal bs = v at hge hpu
  unfold Atoi
  simp only [h, hlen, if_false, ParseInt, or_true, if_true, hpu, decide_True]
  by_cases hv : v < 2 ^ 64
  · simp only [hv, if_true]
    have h9 : 9223372036854775808 < v := by omega
    simp [h9]
  · simp only [hv, if_false]

/-- Outside the range of the 64-bit `int`, `strconv.Atoi` rejects the decimal
text of an integer with a range error. -/
theorem Atoi_toString_range (n : Int) (h : n < -2 ^ 63 ∨ 2 ^ 63 ≤ n) :
    Atoi (toString n) = .error (.numError "Atoi" (toString n) .ErrRange) := by
  cases n with
  | ofNat m =>
    obtain ⟨bs, hbs, hne, hdig, hval⟩ := goBytes_natRepr m
    have hm : 2 ^ 63 ≤ m := by
      rcases h with h | h
      · have h1 : (0 : Int) ≤ (m : Int) := Int.ofNat_nonneg m
        have h2 : Int.ofNat m = (m : Int) := rfl
        rw [h2] at h
        omega
      · have h2 : Int.ofNat m = (m : Int) := rfl
        rw [h2] at h
        omega
    exact Atoi_of_digits_range (toString m) bs hbs hne hdig (by omega)
  | negSucc m =>
    obtain ⟨bs, hbs, hne, hdig, hval⟩ := goBytes_natRepr (m + 1)
    have hb : goBytes (toString (Int.negSucc m)) = 45 :: bs := by
      rw [← hbs]; rfl
    have hm : 2 ^ 63 < m + 1 := by
      have h2 : Int.negSucc m = -((m : Int) + 1) := rfl
      rw [h2] at h
      omega
    exact Atoi_of_neg_digits_range _ bs hb hne hdig (by omega)

/-! ## Case analysis of a run -/

/-- The nine paths through the handler: every run is exactly one of them. -/
theorem submitReview_cases (w : World) (r : Request) :
    (r.Method ≠ MethodPost ∧ submitReview w r =
      { response := some (httpError "Invalid request method" StatusMethodNotAllowed)
        trace := [] }) ∨
    (∃ err, r.Method = MethodPost ∧ r.ParseForm = some err ∧ submitReview w r =
      { response := some (httpError "Error parsing form" StatusBadRequest)
        trace := [Event.println "Form submission received",
          Event.printf "Error parsing form: %v\n" [.err err]] }) ∨
    (∃ err, r.Method = MethodPost ∧ r.ParseForm = none ∧
      Atoi (r.FormValue "rating") = .error err ∧ submitReview w r =
      { response := some (httpError "Invalid rating value" StatusBadRequest)
        trace := [Event.println "Form submission received",
          Event.printf "Invalid rating value: %v\n" [.err err]] }) ∨
    (∃ rating, r.Method = MethodPost ∧ r.ParseForm = none ∧
      Atoi (r.FormValue "rating") = .ok rating ∧
      (r.FormValue "review_name" = "" ∨ rating = 0 ∨ r.FormValue "review_description" = "") ∧
      submitReview w r =
      { response := some (httpError "All fields are required" StatusBadRequest)
        trace := receivedLog r rating ++ [Event.println "Missing required form fields"] }) ∨
    (∃ rating, Valid r rating ∧
      (analyzeSentiment w (r.FormValue "review_description")).1 = .panic ∧
      submitReview w r =
      { response := none
        trace := receivedLog r rating ++
          [Event.generateContent (sentimentPrompt (r.FormValue "review_description"))] }) ∨
    (∃ rating err, Valid r rating ∧
      (analyzeSentiment w (r.FormValue "review_description")).1 = .error err ∧
      submitReview w r =
      { response := some (httpError "Error analyzing sentiment" StatusInternalServerError)
        trace := receivedLog r rating ++
          [Event.generateContent (sentimentPrompt (r.FormValue "review_description")),
           Event.printf "Error analyzing sentiment: %v\n" [.err err]] }) ∨
    (∃ rating sentiment err, Valid r rating ∧
      (analyzeSentiment w (r.FormValue "review_description")).1 = .ok sentiment ∧
      w.Prepare insertSQL = some err ∧
      submitReview w r =
      { response := some (httpError "Database error" StatusInternalServerError)
        trace := receivedLog r rating ++
          [Event.generateContent (sentimentPrompt (r.FormValue "review_description")),
           Event.prepare insertSQL,
           Event.printf "Database preparation error: %v\n" [.err err]] }) ∨
    (∃ rating sentiment err, Valid r rating ∧
      (analyzeSentiment w (r.FormValue "review_description")).1 = .ok sentiment ∧
      w.Prepare insertSQL = none ∧
      w.Exec (r.FormValue "review_name") rating (r.FormValue "review_description") = some err ∧
      submitReview w r =
      { response := some (httpError "Database error" StatusInternalServerError)
        trace := receivedLog r rating ++
          [Event.generateContent (sentimentPrompt (r.FormValue "review_description")),
           Event.prepare insertSQL,
           Event.exec (r.FormValue "review_name") rating (r.FormValue "review_description"),
           Event.printf "Database execution error: %v\n" [.err err],
           Event.stmtClose] }) ∨
    (∃ rating sentiment, Valid r rating ∧
      (analyzeSentiment w (r.FormValue "review_description")).1 = .ok sentiment ∧
      w.Prepare insertSQL = none ∧
      w.Exec (r.FormValue "review_name") rating (r.FormValue "review_description") = none ∧
      submitReview w r =
      { response := some { status := StatusOK, body := renderFragment (sentimentMessage sentiment) }
        trace := receivedLog r rating ++
          [Event.generateContent (sentimentPrompt (r.FormValue "review_description")),
           Event.prepare insertSQL,
           Event.exec (r.FormValue "review_name") rating (r.FormValue "review_description"),
           Event.println "Review submitted successfully",
           Event.createMessage (smsRequest w (r.FormValue "review_name") rating),
           smsLog (w.CreateMessage (smsRequest w (r.FormValue "review_name") rating)),
           Event.stmtClose] }) := by
  rcases validation_cases r with hm | ⟨err, hm, hp⟩ | ⟨err, hm, hp, ha⟩ |
      ⟨rating, hm, hp, ha, hf⟩ | ⟨rating, hv⟩
  · exact Or.inl ⟨hm, submitReview_not_post w r hm⟩
  · exact Or.inr (Or.inl ⟨err, hm, hp, submitReview_parse_error w r err hm hp⟩)
  · exact Or.inr (Or.inr (Or.inl ⟨err, hm, hp, ha, submitReview_bad_rating w r err hm hp ha⟩))
  · exact Or.inr (Or.inr (Or.inr (Or.inl
      ⟨rating, hm, hp, ha, hf, submitReview_missing w r rating hm hp ha hf⟩)))
  · right; right; right; right
    rcases classifier_cases w r with hc | ⟨err, hc⟩ | ⟨s, hc⟩
    · exact Or.inl ⟨rating, hv, hc, submitReview_classifier_panic w r rating hv hc⟩
    · exact Or.inr (Or.inl ⟨rating, err, hv, hc, submitReview_classifier_error w r rating err hv hc⟩)
    · right; right
      cases hp : w.Prepare insertSQL with
      | some err =>
        exact Or.inl ⟨rating, s, err, hv, hc, rfl, submitReview_prepare_error w r rating s err hv hc hp⟩
      | none =>
        right
        cases he : w.Exec (r.FormValue "review_name") rating (r.FormValue "review_description") with
        | some err =>
          exact Or.inl ⟨rating, s, err, hv, hc, rfl, he,
            submitReview_exec_error w r rating s err hv hc hp he⟩
        | none =>
          exact Or.inr ⟨rating, s, hv, hc, rfl, he, submitReview_success w r rating s hv hc hp he⟩

theorem insertions_receivedLog (r : Request) (rating : Int) (t : List Event) :
    insertions (receivedLog r rating ++ t) = insertions t := by
  simp [receivedLog, insertions]

theorem notifications_receivedLog (r : Request) (rating : Int) (t : List Event) :
    notifications (receivedLog r rating ++ t) = notifications t := by
  simp [receivedLog, notifications]

theorem classifierCalls_receivedLog (r : Request) (rating : Int) (t : List Event) :
    classifierCalls (receivedLog r rating ++ t) = classifierCalls t := by
  simp [receivedLog, classifierCalls]

theorem externalCalls_receivedLog (r : Request) (rating : Int) (t : List Event) :
    externalCalls (receivedLog r rating ++ t) = externalCalls t := by
  simp [receivedLog, externalCalls]

theorem insertions_smsLog (e : Option GoError) (t : List Event) :
    insertions (smsLog e :: t) = insertions t := by
  cases e <;> simp [smsLog, insertions]

theorem notifications_smsLog (e : Option GoError) (t : List Event) :
    notifications (smsLog e :: t) = notifications t := by
  cases e <;> simp [smsLog, notifications]

theorem classifierCalls_smsLog (e : Option GoError) (t : List Event) :
    classifierCalls (smsLog e :: t) = classifierCalls t := by
  cases e <;> simp [smsLog, classifierCalls]

theorem externalCalls_smsLog (e : Option GoError) (t : List Event) :
    externalCalls (smsLog e :: t) = externalCalls t := by
  cases e <;> simp [smsLog, externalCalls]

/-! ## The text of a candidate -/

theorem concatText_eq (parts : List Part) : ∀ acc : String,
    concatText parts acc = acc ++ joinText parts := by
  induction parts with
  | nil => intro acc; simp [concatText, joinText]
  | cons p rest ih =>
    intro acc
    cases p with
    | Text t => simp [concatText, joinText, ih, String.append_assoc]
    | other k => simp [concatText, joinText, ih]

theorem concatText_empty (parts : List Part) : concatText parts "" = joinText parts := by
  rw [concatText_eq]; simp

/-! ## The claims -/

/-- C1: a POST whose form parses but whose name or description is empty, whose
rating text is rejected by `strconv.Atoi` or whose rating is 0 is answered with
status 400 and makes no classifier call, no store insertion and no notification;
and in every run each inserted record has a non-empty name, a non-empty
description and a non-zero rating. -/
theorem C1_validation_completeness (w : World) (r : Request) :
    (r.Method = MethodPost → r.ParseForm = none →
      (r.FormValue "review_name" = "" ∨ r.FormValue "review_description" = "" ∨
        (∃ err, Atoi (r.FormValue "rating") = .error err) ∨
        Atoi (r.FormValue "rating") = .ok 0) →
      (∃ resp, (submitReview w r).response = some resp ∧ resp.status = 400) ∧
      classifierCalls (submitReview w r).trace = [] ∧
      insertions (submitReview w r).trace = [] ∧
      notifications (submitReview w r).trace = []) ∧
    (∀ name rating description,
      (name, rating, description) ∈ insertions (submitReview w r).trace →
      name ≠ "" ∧ description ≠ "" ∧ rating ≠ 0) := by
  constructor
  · intro hm hp hbad
    cases ha : Atoi (r.FormValue "rating") with
    | error err =>
      rw [submitReview_bad_rating w r err hm hp ha]
      exact ⟨⟨_, rfl, rfl⟩, rfl, rfl, rfl⟩
    | ok rating =>
      have hf : r.FormValue "review_name" = "" ∨ rating = 0 ∨
          r.FormValue "review_description" = "" := by
        rcases hbad with h | h | ⟨err, h⟩ | h
        · exact Or.inl h
        · exact Or.inr (Or.inr h)
        · rw [ha] at h; cases h
        · rw [ha] at h; injection h with h; exact Or.inr (Or.inl h)
      rw [submitReview_missing w r rating hm hp ha hf]
      refine ⟨⟨_, rfl, rfl⟩, ?_, ?_, ?_⟩
      · rw [classifierCalls_receivedLog]; rfl
      · rw [insertions_receivedLog]; rfl
      · rw [notifications_receivedLog]; rfl
  · intro name rating description hin
    rcases submitReview_cases w r with ⟨_, h⟩ | ⟨_, _, _, h⟩ | ⟨_, _, _, _, h⟩ |
      ⟨_, _, _, _, _, h⟩ | ⟨_, _, _, h⟩ | ⟨_, _, _, _, h⟩ | ⟨_, _, _, _, _, _, h⟩ |
      ⟨k, _, _, hv, _, _, _, h⟩ | ⟨k, _, hv, _, _, _, h⟩ <;> rw [h] at hin <;>
      simp [insertions, insertions_receivedLog, insertions_smsLog] at hin
    · obtain ⟨h1, h2, h3⟩ := hin
      subst h1 h2 h3
      exact ⟨hv.2.2.2.1, hv.2.2.2.2.2, hv.2.2.2.2.1⟩
    · obtain ⟨h1, h2, h3⟩ := hin
      subst h1 h2 h3
      exact ⟨hv.2.2.2.1, hv.2.2.2.2.2, hv.2.2.2.2.1⟩

theorem C1_validation_completeness_witness :
    (∃ resp, (submitReview (worldOf (textReply "Positive") none none none)
        (postOf "Ana" "0" "Great product")).response = some resp ∧ resp.status = 400) ∧
      classifierCalls (submitReview (worldOf (textReply "Positive") none none none)
        (postOf "Ana" "0" "Great product")).trace = [] ∧
      insertions (submitReview (worldOf (textReply "Positive") none none none)
        (postOf "Ana" "0" "Great product")).trace = [] ∧
      notifications (submitReview (worldOf (textReply "Positive") none none none)
        (postOf "Ana" "0" "Great product")).trace = [] :=
  (C1_validation_completeness (worldOf (textReply "Positive") none none none)
    (postOf "Ana" "0" "Great product")).1 rfl rfl (Or.inr (Or.inr (Or.inr rfl)))

/-- C2: when a submission passes validation and `analyzeSentiment` returns an
error, the answer is status 500 with the message "Error analyzing sentiment",
and the run makes no store insertion and no notification attempt. -/
theorem C2_classification_gating (w : World) (r : Request) (rating : Int) (err : GoError)
    (hv : Valid r rating)
    (hc : (analyzeSentiment w (r.FormValue "review_description")).1 = .error err) :
    (submitReview w r).response =
        some { status := 500, body := "Error analyzing sentiment\n" } ∧
      insertions (submitReview w r).trace = [] ∧
      notifications (submitReview w r).trace = [] := by
  rw [submitReview_classifier_error w r rating err hv hc]
  refine ⟨rfl, ?_, ?_⟩
  · rw [insertions_receivedLog]; rfl
  · rw [notifications_receivedLog]; rfl

theorem C2_classification_gating_witness :
    (submitReview (worldOf (.ok { Candidates := [] }) none none none)
        (postOf "Ana" "5" "Great product")).response =
        some { status := 500, body := "Error analyzing sentiment\n" } ∧
      insertions (submitReview (worldOf (.ok { Candidates := [] }) none none none)
        (postOf "Ana" "5" "Great product")).trace = [] ∧
      notifications (submitReview (worldOf (.ok { Candidates := [] }) none none none)
        (postOf "Ana" "5" "Great product")).trace = [] :=
  C2_classification_gating (worldOf (.ok { Candidates := [] }) none none none)
    (postOf "Ana" "5" "Great product") 5 (.errorf "no candidates in response")
    ⟨rfl, rfl, rfl, by decide, by decide, by decide⟩ rfl

/-- C3: when a submission passes validation and the classifier and the store
succeed, the run makes exactly one store insertion, of the submitted name, the
integer parsed from the rating text and the submitted description, and exactly
one (hence at most one) notification attempt, built from that name and rating;
the calls occur in the order classifier, prepare, insert, notify. -/
theorem C3_one_insertion_then_notification (w : World) (r : Request) (rating : Int)
    (sentiment : String) (hv : Valid r rating)
    (hc : (analyzeSentiment w (r.FormValue "review_description")).1 = .ok sentiment)
    (hp : w.Prepare insertSQL = none)
    (he : w.Exec (r.FormValue "review_name") rating (r.FormValue "review_description") = none) :
    Atoi (r.FormValue "rating") = .ok rating ∧
      insertions (submitReview w r).trace =
        [(r.FormValue "review_name", rating, r.FormValue "review_description")] ∧
      notifications (submitReview w r).trace =
        [smsRequest w (r.FormValue "review_name") rating] ∧
      (notifications (submitReview w r).trace).length ≤ 1 ∧
      (smsRequest w (r.FormValue "review_name") rating).Body =
        r.FormValue "review_name" ++ " rated your product a " ++ toString rating ++ " star" ∧
      externalCalls (submitReview w r).trace =
        [Event.generateContent (sentimentPrompt (r.FormValue "review_description")),
         Event.prepare insertSQL,
         Event.exec (r.FormValue "review_name") rating (r.FormValue "review_description"),
         Event.createMessage (smsRequest w (r.FormValue "review_name") rating),
         Event.stmtClose] := by
  rw [submitReview_success w r rating sentiment hv hc hp he]
  refine ⟨hv.2.2.1, ?_, ?_, ?_, rfl, ?_⟩
  · rw [insertions_receivedLog]
    simp [insertions, insertions_smsLog]
  · rw [notifications_receivedLog]
    simp [notifications, notifications_smsLog]
  · rw [notifications_receivedLog]
    simp [notifications, notifications_smsLog]
  · rw [externalCalls_receivedLog]
    simp [externalCalls, externalCalls_smsLog]

theorem C3_one_insertion_then_notification_witness :
    Atoi ((postOf "Ana" "5" "Great product").FormValue "rating") = .ok 5 ∧
      insertions (submitReview (worldOf (textReply "Positive") none none none)
        (postOf "Ana" "5" "Great product")).trace = [("Ana", 5, "Great product")] ∧
      notifications (submitReview (worldOf (textReply "Positive") none none none)
        (postOf "Ana" "5" "Great product")).trace =
        [smsRequest (worldOf (textReply "Positive") none none none) "Ana" 5] ∧
      (notifications (submitReview (worldOf (textReply "Positive") none none none)
        (postOf "Ana" "5" "Great product")).trace).length ≤ 1 ∧
      (smsRequest (worldOf (textReply "Positive") none none none) "Ana" 5).Body =
        "Ana" ++ " rated your product a " ++ toString (5 : Int) ++ " star" ∧
      externalCalls (submitReview (worldOf (textReply "Positive") none none none)
        (postOf "Ana" "5" "Great product")).trace =
        [Event.generateContent (sentimentPrompt "Great product"),
         Event.prepare insertSQL,
         Event.exec "Ana" 5 "Great product",
         Event.createMessage (smsRequest (worldOf (textReply "Positive") none none none) "Ana" 5),
         Event.stmtClose] :=
  C3_one_insertion_then_notification (worldOf (textReply "Positive") none none none)
    (postOf "Ana" "5" "Great product") 5 "Positive"
    ⟨rfl, rfl, rfl, by decide, by decide, by decide⟩ rfl rfl rfl

/-- C4: notification independence. For a submission that passes validation and
whose classification and persistence succeed, two runs in worlds that differ
only in what the messaging provider answers give the same response, status 200
with the same body, and the same store insertions. -/
theorem C4_notification_independence (w1 w2 : World) (r : Request) (rating : Int)
    (sentiment : String) (hv : Valid r rating)
    (hc : (analyzeSentiment w1 (r.FormValue "review_description")).1 = .ok sentiment)
    (hp : w1.Prepare insertSQL = none)
    (he : w1.Exec (r.FormValue "review_name") rating (r.FormValue "review_description") = none)
    (hG : w2.GenerateContent = w1.GenerateContent) (hP : w2.Prepare = w1.Prepare)
    (hE : w2.Exec = w1.Exec) :
    (submitReview w1 r).response = (submitReview w2 r).response ∧
      (submitReview w1 r).response =
        some { status := 200, body := renderFragment (sentimentMessage sentiment) } ∧
      insertions (submitReview w1 r).trace = insertions (submitReview w2 r).trace := by
  have hc2 : (analyzeSentiment w2 (r.FormValue "review_description")).1 = .ok sentiment := by
    simp only [analyzeSentiment, hG] at hc ⊢
    exact hc
  have hp2 : w2.Prepare insertSQL = none := by rw [hP]; exact hp
  have he2 : w2.Exec (r.FormValue "review_name") rating (r.FormValue "review_description")
      = none := by rw [hE]; exact he
  rw [submitReview_success w1 r rating sentiment hv hc hp he,
    submitReview_success w2 r rating sentiment hv hc2 hp2 he2]
  refine ⟨rfl, rfl, ?_⟩
  rw [insertions_receivedLog, insertions_receivedLog]
  simp [insertions, insertions_smsLog]

theorem C4_notification_independence_witness :
    (submitReview (worldOf (textReply "Negative") none none (some (.external "provider down")))
        (postOf "Ana" "1" "Broke in a week")).response =
      (submitReview (worldOf (textReply "Negative") none none none)
        (postOf "Ana" "1" "Broke in a week")).response ∧
      (submitReview (worldOf (textReply "Negative") none none (some (.external "provider down")))
        (postOf "Ana" "1" "Broke in a week")).response =
        some { status := 200, body := renderFragment (sentimentMessage "Negative") } ∧
      insertions (submitReview
        (worldOf (textReply "Negative") none none (some (.external "provider down")))
        (postOf "Ana" "1" "Broke in a week")).trace =
      insertions (submitReview (worldOf (textReply "Negative") none none none)
        (postOf "Ana" "1" "Broke in a week")).trace :=
  C4_notification_independence
    (worldOf (textReply "Negative") none none (some (.external "provider down")))
    (worldOf (textReply "Negative") none none none)
    (postOf "Ana" "1" "Broke in a week") 1 "Negative"
    ⟨rfl, rfl, rfl, by decide, by decide, by decide⟩ rfl rfl rfl rfl rfl rfl

/-- C5: on a fully successful submission with classifier label `sentiment` the
response is status 200 with the HTML fragment around the acknowledgment; the
acknowledgment is the positive text exactly when the label is "Positive", the
apology exactly when it is "Negative" and the generic thanks for every other
label ("Neutral", "", "positive", "Positive." among them); the fragment holds
the message in a `<p>` element and a link with href "/". -/
theorem C5_sentiment_message (w : World) (r : Request) (rating : Int)
    (sentiment : String) (hv : Valid r rating)
    (hc : (analyzeSentiment w (r.FormValue "review_description")).1 = .ok sentiment)
    (hp : w.Prepare insertSQL = none)
    (he : w.Exec (r.FormValue "review_name") rating (r.FormValue "review_description") = none) :
    (submitReview w r).response =
        some { status := 200, body := renderFragment (sentimentMessage sentiment) } ∧
      (sentimentMessage sentiment = "Thank you for the positive feedback!" ↔
        sentiment = "Positive") ∧
      (sentimentMessage sentiment =
          "We are sorry to hear about your experience. We will work on improving it!" ↔
        sentiment = "Negative") ∧
      (sentimentMessage sentiment = "Thank you for your feedback!" ↔
        (sentiment ≠ "Positive" ∧ sentiment ≠ "Negative")) ∧
      sentimentMessage "Neutral" = "Thank you for your feedback!" ∧
      sentimentMessage "" = "Thank you for your feedback!" ∧
      sentimentMessage "positive" = "Thank you for your feedback!" ∧
      sentimentMessage "Positive." = "Thank you for your feedback!" ∧
      ("<p>" ++ sentimentMessage sentiment ++ "</p>").toList <:+:
        (renderFragment (sentimentMessage sentiment)).toList ∧
      ("<a href=\"/\">").toList <:+: (renderFragment (sentimentMessage sentiment)).toList := by
  rw [submitReview_success w r rating sentiment hv hc hp he]
  refine ⟨rfl, ?_, ?_, ?_, by decide, by decide, by decide, by decide, ?_, ?_⟩
  · unfold sentimentMessage
    by_cases h1 : sentiment = "Positive"
    · simp [h1]
    · by_cases h2 : sentiment = "Negative"
      · simp [h2]
      · simp [h1, h2]
  · unfold sentimentMessage
    by_cases h1 : sentiment = "Positive"
    · simp [h1]
    · by_cases h2 : sentiment = "Negative"
      · simp [h2]
      · simp [h1, h2]
  · unfold sentimentMessage
    by_cases h1 : sentiment = "Positive"
    · simp [h1]
    · by_cases h2 : sentiment = "Negative"
      · simp [h2]
      · simp [h1, h2]
  · refine ⟨("\n                <div class=\"sentiment-message\">\n                    ").toList,
      ("\n                    <a href=\"/\">Submit another review</a>\n                </div>\n            ").toList, ?_⟩
    simp [renderFragment, fragmentHead, fragmentTail, String.toList]
  · refine ⟨(fragmentHead ++ sentimentMessage sentiment ++ "</p>\n                    ").toList,
      ("Submit another review</a>\n                </div>\n            ").toList, ?_⟩
    simp [renderFragment, fragmentHead, fragmentTail, String.toList]

theorem C5_sentiment_message_witness :
    (submitReview (worldOf (textReply " Positive\n") none none none)
        (postOf "Ana" "5" "Great product")).response =
        some { status := 200, body := renderFragment (sentimentMessage "Positive") } ∧
      (sentimentMessage "Positive" = "Thank you for the positive feedback!" ↔
        "Positive" = "Positive") ∧
      (sentimentMessage "Positive" =
          "We are sorry to hear about your experience. We will work on improving it!" ↔
        "Positive" = "Negative") ∧
      (sentimentMessage "Positive" = "Thank you for your feedback!" ↔
        ("Positive" ≠ "Positive" ∧ "Positive" ≠ "Negative")) ∧
      sentimentMessage "Neutral" = "Thank you for your feedback!" ∧
      sentimentMessage "" = "Thank you for your feedback!" ∧
      sentimentMessage "positive" = "Thank you for your feedback!" ∧
      sentimentMessage "Positive." = "Thank you for your feedback!" ∧
      ("<p>" ++ sentimentMessage "Positive" ++ "</p>").toList <:+:
        (renderFragment (sentimentMessage "Positive")).toList ∧
      ("<a href=\"/\">").toList <:+: (renderFragment (sentimentMessage "Positive")).toList :=
  C5_sentiment_message (worldOf (textReply " Positive\n") none none none)
    (postOf "Ana" "5" "Great product") 5 "Positive"
    ⟨rfl, rfl, rfl, by decide, by decide, by decide⟩ rfl rfl rfl

/-- C6: when a submission passes validation, its classification succeeds and
the store write fails, in `Prepare` or in `Exec`, the answer is status 500 with
the message "Database error", no notification is attempted and the body holds
no sentiment acknowledgment. In every run a notification attempt comes after an
insertion that succeeded, and an insertion comes after a classifier call that
succeeded. -/
theorem C6_persistence_failure_and_ordering (w : World) (r : Request) :
    (∀ rating sentiment, Valid r rating →
      (analyzeSentiment w (r.FormValue "review_description")).1 = .ok sentiment →
      ((∃ err, w.Prepare insertSQL = some err) ∨
        (∃ err, w.Prepare insertSQL = none ∧
          w.Exec (r.FormValue "review_name") rating (r.FormValue "review_description")
            = some err)) →
      (submitReview w r).response = some { status := 500, body := "Database error\n" } ∧
      notifications (submitReview w r).trace = [] ∧
      ∀ label, ¬ (sentimentMessage label).toList <:+: ("Database error\n").toList) ∧
    (∀ m, m ∈ notifications (submitReview w r).trace →
      ∃ pre post name rating description,
        (submitReview w r).trace = pre ++ Event.exec name rating description :: post ∧
        notifications pre = [] ∧ m ∈ notifications post ∧
        w.Prepare insertSQL = none ∧ w.Exec name rating description = none) ∧
    (∀ name rating description,
      (name, rating, description) ∈ insertions (submitReview w r).trace →
      ∃ pre post sentiment,
        (submitReview w r).trace =
          pre ++ Event.generateContent (sentimentPrompt description) :: post ∧
        insertions pre = [] ∧ (name, rating, description) ∈ insertions post ∧
        (analyzeSentiment w description).1 = .ok sentiment) := by
  refine ⟨?_, ?_, ?_⟩
  · intro rating sentiment hv hc hfail
    have hno : ∀ label, ¬ (sentimentMessage label).toList <:+: ("Database error\n").toList := by
      intro label
      unfold sentimentMessage
      split_ifs <;> decide
    rcases hfail with ⟨err, hp⟩ | ⟨err, hp, he⟩
    · rw [submitReview_prepare_error w r rating sentiment err hv hc hp]
      refine ⟨rfl, ?_, hno⟩
      rw [notifications_receivedLog]; rfl
    · rw [submitReview_exec_error w r rating sentiment err hv hc hp he]
      refine ⟨rfl, ?_, hno⟩
      rw [notifications_receivedLog]; rfl
  · intro m hin
    rcases submitReview_cases w r with ⟨_, h⟩ | ⟨_, _, _, h⟩ | ⟨_, _, _, _, h⟩ |
      ⟨_, _, _, _, _, h⟩ | ⟨_, _, _, h⟩ | ⟨_, _, _, _, h⟩ | ⟨_, _, _, _, _, _, h⟩ |
      ⟨_, _, _, _, _, _, _, h⟩ | ⟨k, _, hv, _, hp, he, h⟩ <;> rw [h] at hin ⊢ <;>
      simp [notifications, notifications_receivedLog, notifications_smsLog] at hin
    subst hin
    refine ⟨receivedLog r k ++
        [Event.generateContent (sentimentPrompt (r.FormValue "review_description")),
         Event.prepare insertSQL],
      [Event.println "Review submitted successfully",
       Event.createMessage (smsRequest w (r.FormValue "review_name") k),
       smsLog (w.CreateMessage (smsRequest w (r.FormValue "review_name") k)),
       Event.stmtClose],
      r.FormValue "review_name", k, r.FormValue "review_description", ?_, ?_, ?_, hp, he⟩
    · simp
    · rw [notifications_receivedLog]; rfl
    · simp [notifications, notifications_smsLog]
  · intro name rating description hin
    rcases submitReview_cases w r with ⟨_, h⟩ | ⟨_, _, _, h⟩ | ⟨_, _, _, _, h⟩ |
      ⟨_, _, _, _, _, h⟩ | ⟨_, _, _, h⟩ | ⟨_, _, _, _, h⟩ | ⟨_, _, _, _, _, _, h⟩ |
      ⟨k, s, _, hv, hc, _, _, h⟩ | ⟨k, s, hv, hc, _, _, h⟩ <;> rw [h] at hin ⊢ <;>
      simp [insertions, insertions_receivedLog, insertions_smsLog] at hin
    · obtain ⟨h1, h2, h3⟩ := hin
      subst h1 h2 h3
      refine ⟨receivedLog r rating, _, s, rfl, ?_, ?_, hc⟩
      · simp [insertions, receivedLog]
      · simp [insertions]
    · obtain ⟨h1, h2, h3⟩ := hin
      subst h1 h2 h3
      refine ⟨receivedLog r rating, _, s, rfl, ?_, ?_, hc⟩
      · simp [insertions, receivedLog]
      · simp [insertions, insertions_smsLog]

theorem C6_persistence_failure_and_ordering_witness :
    (submitReview (worldOf (textReply "Positive") none (some (.external "disk full")) none)
        (postOf "Ana" "5" "Great product")).response =
        some { status := 500, body := "Database error\n" } ∧
      notifications (submitReview
        (worldOf (textReply "Positive") none (some (.external "disk full")) none)
        (postOf "Ana" "5" "Great product")).trace = [] :=
  have h := (C6_persistence_failure_and_ordering
    (worldOf (textReply "Positive") none (some (.external "disk full")) none)
    (postOf "Ana" "5" "Great product")).1 5 "Positive"
    ⟨rfl, rfl, rfl, by decide, by decide, by decide⟩ rfl
    (Or.inr ⟨.external "disk full", rfl, rfl⟩)
  ⟨h.1, h.2.1⟩

/-- C7 as stated fails: for a response with two candidates, "Positive" then
"Negative", `analyzeSentiment` returns the text of the first candidate alone,
not the concatenation of all returned text fragments. -/
theorem C7_counterexample :
    (analyzeSentiment (worldOf (candidatesReply ["Positive", "Negative"]) none none none)
        "Great product").1 = .ok "Positive" ∧
      specClassify (candidatesReply ["Positive", "Negative"]) = .ok "PositiveNegative" ∧
      (analyzeSentiment (worldOf (candidatesReply ["Positive", "Negative"]) none none none)
        "Great product").1 ≠ specClassify (candidatesReply ["Positive", "Negative"]) := by
  refine ⟨rfl, rfl, ?_⟩
  decide

/-- C7, amended: `analyzeSentiment` makes one generation call. It returns the
error of that call when the call fails, the error "no candidates in response"
when the response has no candidate, and, when the first candidate has content,
the error "no text content in response" if the concatenation of the text
fragments of the first candidate is empty and otherwise, with no error, that
concatenation with surrounding white space trimmed. In those cases it returns
an error exactly when the call fails, there is no candidate, or the first
candidate has no text. -/
theorem C7_analyzeSentiment (w : World) (description : String)
    (hnil : ∀ resp c rest, w.GenerateContent (sentimentPrompt description) = .ok resp →
      resp.Candidates = c :: rest → c.Content ≠ none) :
    (analyzeSentiment w description).2 =
        [Event.generateContent (sentimentPrompt description)] ∧
      (∀ err, w.GenerateContent (sentimentPrompt description) = .error err →
        (analyzeSentiment w description).1 = .error err) ∧
      (∀ resp, w.GenerateContent (sentimentPrompt description) = .ok resp →
        resp.Candidates = [] →
        (analyzeSentiment w description).1 = .error (.errorf "no candidates in response")) ∧
      (∀ resp c rest parts, w.GenerateContent (sentimentPrompt description) = .ok resp →
        resp.Candidates = c :: rest → c.Content = some parts →
        (joinText parts = "" →
          (analyzeSentiment w description).1 =
            .error (.errorf "no text content in response")) ∧
        (joinText parts ≠ "" →
          (analyzeSentiment w description).1 = .ok (TrimSpace (joinText parts)))) ∧
      ((∃ err, (analyzeSentiment w description).1 = .error err) ↔
        ((∃ err, w.GenerateContent (sentimentPrompt description) = .error err) ∨
          (∃ resp, w.GenerateContent (sentimentPrompt description) = .ok resp ∧
            resp.Candidates = []) ∨
          (∃ resp c rest parts, w.GenerateContent (sentimentPrompt description) = .ok resp ∧
            resp.Candidates = c :: rest ∧ c.Content = some parts ∧ joinText parts = ""))) := by
  have hA : ∀ err, w.GenerateContent (sentimentPrompt description) = .error err →
      (analyzeSentiment w description).1 = .error err := by
    intro err h
    simp [analyzeSentiment, analyzeResponse, h]
  have hB : ∀ resp, w.GenerateContent (sentimentPrompt description) = .ok resp →
      resp.Candidates = [] →
      (analyzeSentiment w description).1 = .error (.errorf "no candidates in response") := by
    intro resp h h0
    simp [analyzeSentiment, analyzeResponse, h, h0]
  have hC : ∀ resp c rest parts, w.GenerateContent (sentimentPrompt description) = .ok resp →
      resp.Candidates = c :: rest → c.Content = some parts →
      (joinText parts = "" →
        (analyzeSentiment w description).1 =
          .error (.errorf "no text content in response")) ∧
      (joinText parts ≠ "" →
        (analyzeSentiment w description).1 = .ok (TrimSpace (joinText parts))) := by
    intro resp c rest parts h hc hp
    constructor
    · intro ht
      simp [analyzeSentiment, analyzeResponse, h, hc, hp, concatText_empty, ht]
    · intro ht
      simp [analyzeSentiment, analyzeResponse, h, hc, hp, concatText_empty, ht]
  refine ⟨rfl, hA, hB, hC, ?_⟩
  constructor
  · rintro ⟨err, herr⟩
    cases hg : w.GenerateContent (sentimentPrompt description) with
    | error e => exact Or.inl ⟨e, rfl⟩
    | ok resp =>
      right
      cases hc : resp.Candidates with
      | nil => exact Or.inl ⟨resp, rfl, hc⟩
      | cons c rest =>
        right
        cases hp : c.Content with
        | none => exact absurd hp (hnil resp c rest hg hc)
        | some parts =>
          refine ⟨resp, c, rest, parts, rfl, hc, hp, ?_⟩
          by_contra ht
          rw [(hC resp c rest parts hg hc hp).2 ht] at herr
          cases herr
  · rintro (⟨err, h⟩ | ⟨resp, h, h0⟩ | ⟨resp, c, rest, parts, h, hc, hp, ht⟩)
    · exact ⟨err, hA err h⟩
    · exact ⟨_, hB resp h h0⟩
    · exact ⟨_, (hC resp c rest parts h hc hp).1 ht⟩

theorem C7_analyzeSentiment_witness :
    (analyzeSentiment (worldOf (textReply " Positive\n") none none none) "Great product").1 =
      .ok (TrimSpace (joinText [Part.Text " Positive\n"])) :=
  ((C7_analyzeSentiment (worldOf (textReply " Positive\n") none none none) "Great product"
    (by
      intro resp c rest h hc
      have h1 : resp = { Candidates := [{ Content := some [Part.Text " Positive\n"] }] } := by
        injection h with h; exact h.symm
      subst h1
      injection hc with hc1 _
      subst hc1
      simp)).2.2.2.1
    { Candidates := [{ Content := some [Part.Text " Positive\n"] }] }
    { Content := some [Part.Text " Positive\n"] } [] [Part.Text " Positive\n"]
    rfl rfl rfl).2 (by decide)

/-- C8: the validation checks are applied in the order method, form parsing,
rating parse, required fields, and the response is that of the first failing
check: 405 for a method other than POST whatever the fields are, 400 "Error
parsing form" for a POST whose form does not parse, 400 "Invalid rating value"
for a POST whose rating text does not parse (whatever name and description
are), and 400 "All fields are required" exactly when the rating parsed and the
name is empty, the rating is 0 or the description is empty. A request that
fails validation causes no classifier call, insertion or notification. -/
theorem C8_validation_order (w : World) (r : Request) :
    (r.Method ≠ MethodPost →
      (submitReview w r).response =
        some { status := 405, body := "Invalid request method\n" }) ∧
    (∀ err, r.Method = MethodPost → r.ParseForm = some err →
      (submitReview w r).response = some { status := 400, body := "Error parsing form\n" }) ∧
    (∀ err, r.Method = MethodPost → r.ParseForm = none →
      Atoi (r.FormValue "rating") = .error err →
      (submitReview w r).response = some { status := 400, body := "Invalid rating value\n" }) ∧
    ((submitReview w r).response = some { status := 400, body := "All fields are required\n" } ↔
      (r.Method = MethodPost ∧ r.ParseForm = none ∧
        ∃ rating, Atoi (r.FormValue "rating") = .ok rating ∧
          (r.FormValue "review_name" = "" ∨ rating = 0 ∨
            r.FormValue "review_description" = ""))) ∧
    ((¬ ∃ rating, Valid r rating) →
      classifierCalls (submitReview w r).trace = [] ∧
      insertions (submitReview w r).trace = [] ∧
      notifications (submitReview w r).trace = []) := by
  refine ⟨?_, ?_, ?_, ?_, ?_⟩
  · intro hm
    rw [submitReview_not_post w r hm]; rfl
  · intro err hm hp
    rw [submitReview_parse_error w r err hm hp]; rfl
  · intro err hm hp ha
    rw [submitReview_bad_rating w r err hm hp ha]; rfl
  · constructor
    · intro hresp
      have hb : ∀ (m : String) (c : Nat) (t : List Event),
          ({ response := some (httpError m c), trace := t } : Run).response =
            some { status := 400, body := "All fields are required\n" } →
          m ++ "\n" = "All fields are required\n" := by
        intro m c t h
        simp only [httpError, Option.some.injEq, Response.mk.injEq] at h
        exact h.2
      rcases submitReview_cases w r with ⟨_, h⟩ | ⟨_, _, _, h⟩ | ⟨_, _, _, _, h⟩ |
        ⟨k, hm, hp, ha, hf, h⟩ | ⟨_, _, _, h⟩ | ⟨_, _, _, _, h⟩ | ⟨_, _, _, _, _, _, h⟩ |
        ⟨_, _, _, _, _, _, _, h⟩ | ⟨_, _, _, _, _, _, h⟩ <;> rw [h] at hresp
      · exact absurd (hb _ _ _ hresp) (by decide)
      · exact absurd (hb _ _ _ hresp) (by decide)
      · exact absurd (hb _ _ _ hresp) (by decide)
      · exact ⟨hm, hp, k, ha, hf⟩
      · exact absurd hresp (by simp)
      · exact absurd (hb _ _ _ hresp) (by decide)
      · exact absurd (hb _ _ _ hresp) (by decide)
      · exact absurd (hb _ _ _ hresp) (by decide)
      · exact absurd hresp (by simp [StatusOK])
    · rintro ⟨hm, hp, k, ha, hf⟩
      rw [submitReview_missing w r k hm hp ha hf]; rfl
  · intro hnv
    rcases validation_cases r with hm | ⟨err, hm, hp⟩ | ⟨err, hm, hp, ha⟩ |
      ⟨rating, hm, hp, ha, hf⟩ | ⟨rating, hv⟩
    · rw [submitReview_not_post w r hm]; exact ⟨rfl, rfl, rfl⟩
    · rw [submitReview_parse_error w r err hm hp]; exact ⟨rfl, rfl, rfl⟩
    · rw [submitReview_bad_rating w r err hm hp ha]; exact ⟨rfl, rfl, rfl⟩
    · rw [submitReview_missing w r rating hm hp ha hf]
      refine ⟨?_, ?_, ?_⟩
      · rw [classifierCalls_receivedLog]; rfl
      · rw [insertions_receivedLog]; rfl
      · rw [notifications_receivedLog]; rfl
    · exact absurd ⟨rating, hv⟩ hnv

theorem C8_validation_order_witness :
    (submitReview (worldOf (textReply "Positive") none none none)
        (postOf "" "five" "")).response =
      some { status := 400, body := "Invalid rating value\n" } :=
  (C8_validation_order (worldOf (textReply "Positive") none none none)
    (postOf "" "five" "")).2.2.1 (.numError "Atoi" "five" .ErrSyntax) rfl rfl rfl

/-- C9 as stated fails: a GET request is answered with status 405, which is
neither 400 nor 500. -/
theorem C9_counterexample :
    (requestOf "GET" "Ana" "5" "Great product").Method ≠ MethodPost ∧
      (submitReview (worldOf (textReply "Positive") none none none)
        (requestOf "GET" "Ana" "5" "Great product")).response =
        some { status := 405, body := "Invalid request method\n" } ∧
      ¬ ∃ resp, (submitReview (worldOf (textReply "Positive") none none none)
        (requestOf "GET" "Ana" "5" "Great product")).response = some resp ∧
        (resp.status = 400 ∨ resp.status = 500) := by
  refine ⟨by decide, rfl, ?_⟩
  rintro ⟨resp, h, hs⟩
  have h2 : (submitReview (worldOf (textReply "Positive") none none none)
      (requestOf "GET" "Ana" "5" "Great product")).response =
      some { status := 405, body := "Invalid request method\n" } := rfl
  rw [h2] at h
  injection h with h
  subst h
  rcases hs with hs | hs <;> exact absurd hs (by decide)

/-- C9, amended: every response of the handler other than the success response
has status 400, 405 or 500. A request whose method is not POST gets 405; a form
parsing failure, a rating that does not parse and a missing field each get 400;
a classification error and a persistence error each get 500. -/
theorem C9_failure_statuses (w : World) (r : Request) :
    (r.Method ≠ MethodPost →
      ∃ resp, (submitReview w r).response = some resp ∧ resp.status = 405) ∧
    (∀ err, r.Method = MethodPost → r.ParseForm = some err →
      ∃ resp, (submitReview w r).response = some resp ∧ resp.status = 400) ∧
    (∀ err, r.Method = MethodPost → r.ParseForm = none →
      Atoi (r.FormValue "rating") = .error err →
      ∃ resp, (submitReview w r).response = some resp ∧ resp.status = 400) ∧
    (∀ rating, r.Method = MethodPost → r.ParseForm = none →
      Atoi (r.FormValue "rating") = .ok rating →
      (r.FormValue "review_name" = "" ∨ rating = 0 ∨ r.FormValue "review_description" = "") →
      ∃ resp, (submitReview w r).response = some resp ∧ resp.status = 400) ∧
    (∀ rating err, Valid r rating →
      (analyzeSentiment w (r.FormValue "review_description")).1 = .error err →
      ∃ resp, (submitReview w r).response = some resp ∧ resp.status = 500) ∧
    (∀ rating sentiment, Valid r rating →
      (analyzeSentiment w (r.FormValue "review_description")).1 = .ok sentiment →
      ((∃ err, w.Prepare insertSQL = some err) ∨
        (∃ err, w.Prepare insertSQL = none ∧
          w.Exec (r.FormValue "review_name") rating (r.FormValue "review_description")
            = some err)) →
      ∃ resp, (submitReview w r).response = some resp ∧ resp.status = 500) ∧
    (∀ resp, (submitReview w r).response = some resp → resp.status ≠ 200 →
      resp.status = 400 ∨ resp.status = 405 ∨ resp.status = 500) := by
  refine ⟨?_, ?_, ?_, ?_, ?_, ?_, ?_⟩
  · intro hm
    rw [submitReview_not_post w r hm]; exact ⟨_, rfl, rfl⟩
  · intro err hm hp
    rw [submitReview_parse_error w r err hm hp]; exact ⟨_, rfl, rfl⟩
  · intro err hm hp ha
    rw [submitReview_bad_rating w r err hm hp ha]; exact ⟨_, rfl, rfl⟩
  · intro rating hm hp ha hf
    rw [submitReview_missing w r rating hm hp ha hf]; exact ⟨_, rfl, rfl⟩
  · intro rating err hv hc
    rw [submitReview_classifier_error w r rating err hv hc]; exact ⟨_, rfl, rfl⟩
  · intro rating sentiment hv hc hfail
    rcases hfail with ⟨err, hp⟩ | ⟨err, hp, he⟩
    · rw [submitReview_prepare_error w r rating sentiment err hv hc hp]; exact ⟨_, rfl, rfl⟩
    · rw [submitReview_exec_error w r rating sentiment err hv hc hp he]; exact ⟨_, rfl, rfl⟩
  · intro resp hresp hne
    rcases submitReview_cases w r with ⟨_, h⟩ | ⟨_, _, _, h⟩ | ⟨_, _, _, _, h⟩ |
      ⟨_, _, _, _, _, h⟩ | ⟨_, _, _, h⟩ | ⟨_, _, _, _, h⟩ | ⟨_, _, _, _, _, _, h⟩ |
      ⟨_, _, _, _, _, _, _, h⟩ | ⟨_, _, _, _, _, _, h⟩ <;> rw [h] at hresp <;>
      simp only [Option.some.injEq, reduceCtorEq] at hresp <;> subst hresp
    · exact Or.inr (Or.inl rfl)
    · exact Or.inl rfl
    · exact Or.inl rfl
    · exact Or.inl rfl
    · exact Or.inr (Or.inr rfl)
    · exact Or.inr (Or.inr rfl)
    · exact Or.inr (Or.inr rfl)
    · exact absurd rfl hne

theorem C9_failure_statuses_witness :
    ∃ resp, (submitReview (worldOf (textReply "Positive") none none none)
      (requestOf "DELETE" "Ana" "5" "Great product")).response = some resp ∧
      resp.status = 405 :=
  (C9_failure_statuses (worldOf (textReply "Positive") none none none)
    (requestOf "DELETE" "Ana" "5" "Great product")).1 (by decide)

/-- C10 as stated fails: the rating 9223372036854775808 (2 to the power 63) is a
non-zero integer, yet with a non-empty name and description its decimal text is
rejected by `strconv.Atoi` with a range error and the submission is answered
with 400 "Invalid rating value", before any classifier call. -/
theorem C10_counterexample :
    toString ((2 : Int) ^ 63) = "9223372036854775808" ∧
      Atoi "9223372036854775808" =
        .error (.numError "Atoi" "9223372036854775808" .ErrRange) ∧
      (submitReview (worldOf (textReply "Positive") none none none)
        (postOf "Ana" (toString ((2 : Int) ^ 63)) "Great product")).response =
        some { status := 400, body := "Invalid rating value\n" } ∧
      classifierCalls (submitReview (worldOf (textReply "Positive") none none none)
        (postOf "Ana" (toString ((2 : Int) ^ 63)) "Great product")).trace = [] := by
  refine ⟨by rfl, by rfl, by rfl, by rfl⟩

/-- C10, amended: take a POST whose name and description are non-empty and
whose rating field is the decimal text of a non-zero integer `n`. If `n` is in
the range of Go's 64-bit `int` (from -2^63 to 2^63 - 1), negative values
included, the submission passes validation: it is not answered with 400, the
classifier is called with the description, and when classifier and store
succeed the one stored record holds the rating `n`. If `n` is outside that
range the submission is answered with 400 "Invalid rating value" and no
classifier call is made. -/
theorem C10_permissive_rating (w : World) (r : Request) (n : Int)
    (hm : r.Method = MethodPost) (hp : r.ParseForm = none)
    (hname : r.FormValue "review_name" ≠ "") (hdesc : r.FormValue "review_description" ≠ "")
    (hrating : r.FormValue "rating" = toString n) (hn : n ≠ 0) :
    ((-2 ^ 63 ≤ n ∧ n < 2 ^ 63) →
      Valid r n ∧
      (∀ resp, (submitReview w r).response = some resp → resp.status ≠ 400) ∧
      classifierCalls (submitReview w r).trace =
        [sentimentPrompt (r.FormValue "review_description")] ∧
      (∀ sentiment,
        (analyzeSentiment w (r.FormValue "review_description")).1 = .ok sentiment →
        w.Prepare insertSQL = none →
        w.Exec (r.FormValue "review_name") n (r.FormValue "review_description") = none →
        insertions (submitReview w r).trace =
          [(r.FormValue "review_name", n, r.FormValue "review_description")])) ∧
    ((n < -2 ^ 63 ∨ 2 ^ 63 ≤ n) →
      (submitReview w r).response =
        some { status := 400, body := "Invalid rating value\n" } ∧
      classifierCalls (submitReview w r).trace = []) := by
  constructor
  · rintro ⟨hlo, hhi⟩
    have ha : Atoi (r.FormValue "rating") = .ok n := by
      rw [hrating]; exact Atoi_toString n hlo hhi
    have hv : Valid r n := ⟨hm, hp, ha, hname, hn, hdesc⟩
    refine ⟨hv, ?_, ?_, ?_⟩
    · intro resp hresp
      rcases classifier_cases w r with hc | ⟨err, hc⟩ | ⟨s, hc⟩
      · rw [submitReview_classifier_panic w r n hv hc] at hresp
        cases hresp
      · rw [submitReview_classifier_error w r n err hv hc] at hresp
        injection hresp with hresp
        subst hresp
        decide
      · cases hq : w.Prepare insertSQL with
        | some err =>
          rw [submitReview_prepare_error w r n s err hv hc hq] at hresp
          injection hresp with hresp
          subst hresp
          decide
        | none =>
          cases he : w.Exec (r.FormValue "review_name") n
              (r.FormValue "review_description") with
          | some err =>
            rw [submitReview_exec_error w r n s err hv hc hq he] at hresp
            injection hresp with hresp
            subst hresp
            decide
          | none =>
            rw [submitReview_success w r n s hv hc hq he] at hresp
            injection hresp with hresp
            subst hresp
            show StatusOK ≠ 400
            decide
    · rcases classifier_cases w r with hc | ⟨err, hc⟩ | ⟨s, hc⟩
      · rw [submitReview_classifier_panic w r n hv hc, classifierCalls_receivedLog]; rfl
      · rw [submitReview_classifier_error w r n err hv hc, classifierCalls_receivedLog]; rfl
      · cases hq : w.Prepare insertSQL with
        | some err =>
          rw [submitReview_prepare_error w r n s err hv hc hq, classifierCalls_receivedLog]; rfl
        | none =>
          cases he : w.Exec (r.FormValue "review_name") n
              (r.FormValue "review_description") with
          | some err =>
            rw [submitReview_exec_error w r n s err hv hc hq he, classifierCalls_receivedLog]
            rfl
          | none =>
            rw [submitReview_success w r n s hv hc hq he, classifierCalls_receivedLog]
            simp [classifierCalls, classifierCalls_smsLog]
    · intro s hc hq he
      rw [submitReview_success w r n s hv hc hq he, insertions_receivedLog]
      simp [insertions, insertions_smsLog]
  · intro hout
    have ha : Atoi (r.FormValue "rating") =
        .error (.numError "Atoi" (toString n) .ErrRange) := by
      rw [hrating]; exact Atoi_toString_range n hout
    rw [submitReview_bad_rating w r _ hm hp ha]
    exact ⟨rfl, rfl⟩

theorem C10_permissive_rating_witness :
    Valid (postOf "Ana" "-7" "Great product") (-7) ∧
      classifierCalls (submitReview (worldOf (textReply "Positive") none none none)
        (postOf "Ana" "-7" "Great product")).trace = [sentimentPrompt "Great product"] :=
  have h := (C10_permissive_rating (worldOf (textReply "Positive") none none none)
    (postOf "Ana" "-7" "Great product") (-7) rfl rfl (by decide) (by decide) (by rfl)
    (by decide)).1 ⟨by decide, by decide⟩
  ⟨h.1, h.2.2.1⟩

end CustomerReview
